import Mathlib

/-!
Verification of the `@minecraft/server` TypeScript declaration package
(depressed-pho/types-minecraft__server).

The repository is a set of ambient TypeScript declaration files
(`lib/classes.d.ts`, `lib/classes/components.d.ts`, `lib/classes/events.d.ts`,
`lib/enums.d.ts`, `lib/interfaces.d.ts`, `lib/errors.d.ts`,
`lib/constants.d.ts`, `lib/header.d.ts`, `index.d.ts`, a `README.md` and a
`Gulpfile.js` build script).  The development below embeds, shallowly:

* the table of class declarations of the four class-declaring files
  (name, `extends` clause, constructor visibility), byte-faithful to the
  source declarations;
* the per-file table of top-level constructs of every source file;
* the Gulp `clean`/`build` pipeline of `Gulpfile.js` over an abstract
  file system;
* the host-side behavioural contracts that the documentation comments of
  `classes.d.ts` state for `Container`, `ItemStack`, `World.getDimension`,
  `Block.getComponent` and the before/after event registries.  The host
  engine itself is not part of the repository; these models are written
  from the contract wording of the documentation comments in the source.
-/

set_option maxRecDepth 100000

namespace MinecraftServer

/-- Checks that the first list is a prefix of the second, by characters. -/
def listPre : List Char → List Char → Bool
  | [], _ => true
  | _ :: _, [] => false
  | a :: as, b :: bs => a == b && listPre as bs

/-- String `t` occurs at the start of `s`. -/
def strStartsWith (s t : String) : Bool :=
  listPre t.data s.data

/-- String `t` occurs at the end of `s`. -/
def strEndsWith (s t : String) : Bool :=
  listPre t.data.reverse s.data.reverse

/-- Visibility of the `constructor` member of a declared class: an explicit
`constructor(...)`, an explicit `protected constructor()`, or no constructor
declaration at all. -/
inductive CtorDecl where
  | publicCtor
  | protectedCtor
  | noCtor
deriving DecidableEq, Repr

/-- One `export class` declaration: its name, the name in its `extends`
clause when one is present, and its constructor declaration. -/
structure ClassDecl where
  name : String
  parent : Option String
  ctor : CtorDecl
deriving DecidableEq, Repr

/-- Class declarations of `lib/classes.d.ts` (src/unnamed/part_001), in source order. -/
def classesDTs : List ClassDecl := [
  (ClassDecl.mk "Block" none CtorDecl.protectedCtor),
  (ClassDecl.mk "BlockAreaSize" none CtorDecl.publicCtor),
  (ClassDecl.mk "BlockLocationIterator" none CtorDecl.protectedCtor),
  (ClassDecl.mk "BlockPermutation" none CtorDecl.protectedCtor),
  (ClassDecl.mk "BlockStates" none CtorDecl.protectedCtor),
  (ClassDecl.mk "BlockStateType" none CtorDecl.protectedCtor),
  (ClassDecl.mk "BlockType" none CtorDecl.protectedCtor),
  (ClassDecl.mk "BlockVolumeUtils" none CtorDecl.protectedCtor),
  (ClassDecl.mk "BoundingBoxUtils" none CtorDecl.protectedCtor),
  (ClassDecl.mk "CommandResult" none CtorDecl.protectedCtor),
  (ClassDecl.mk "CompoundBlockVolume" none CtorDecl.publicCtor),
  (ClassDecl.mk "Container" none CtorDecl.protectedCtor),
  (ClassDecl.mk "ContainerSlot" none CtorDecl.protectedCtor),
  (ClassDecl.mk "DefinitionModifier" none CtorDecl.publicCtor),
  (ClassDecl.mk "Dimension" none CtorDecl.protectedCtor),
  (ClassDecl.mk "DynamicPropertiesDefinition" none CtorDecl.publicCtor),
  (ClassDecl.mk "Effect" none CtorDecl.protectedCtor),
  (ClassDecl.mk "EffectType" none CtorDecl.protectedCtor),
  (ClassDecl.mk "EffectTypes" none CtorDecl.noCtor),
  (ClassDecl.mk "Enchantment" none CtorDecl.publicCtor),
  (ClassDecl.mk "EnchantmentList" none CtorDecl.publicCtor),
  (ClassDecl.mk "EnchantmentSlot" none CtorDecl.protectedCtor),
  (ClassDecl.mk "EnchantmentType" none CtorDecl.protectedCtor),
  (ClassDecl.mk "EnchantmentTypes" none CtorDecl.protectedCtor),
  (ClassDecl.mk "Entity" none CtorDecl.protectedCtor),
  (ClassDecl.mk "EntityDefinitionFeedItem" none CtorDecl.protectedCtor),
  (ClassDecl.mk "EntityIterator" none CtorDecl.protectedCtor),
  (ClassDecl.mk "EntityType" none CtorDecl.protectedCtor),
  (ClassDecl.mk "EntityTypeIterator" none CtorDecl.protectedCtor),
  (ClassDecl.mk "EntityTypes" none CtorDecl.protectedCtor),
  (ClassDecl.mk "FeedItem" none CtorDecl.protectedCtor),
  (ClassDecl.mk "FeedItemEffect" none CtorDecl.protectedCtor),
  (ClassDecl.mk "FilterGroup" none CtorDecl.protectedCtor),
  (ClassDecl.mk "FluidContainer" none CtorDecl.protectedCtor),
  (ClassDecl.mk "ItemStack" none CtorDecl.publicCtor),
  (ClassDecl.mk "ItemType" none CtorDecl.protectedCtor),
  (ClassDecl.mk "ItemTypeIterator" none CtorDecl.protectedCtor),
  (ClassDecl.mk "ItemTypes" none CtorDecl.protectedCtor),
  (ClassDecl.mk "MinecraftBlockTypes" none CtorDecl.protectedCtor),
  (ClassDecl.mk "MinecraftDimensionTypes" none CtorDecl.protectedCtor),
  (ClassDecl.mk "MinecraftEntityTypes" none CtorDecl.protectedCtor),
  (ClassDecl.mk "MinecraftItemTypes" none CtorDecl.protectedCtor),
  (ClassDecl.mk "MolangVariableMap" none CtorDecl.noCtor),
  (ClassDecl.mk "NavigationResult" none CtorDecl.protectedCtor),
  (ClassDecl.mk "Player" (some "Entity") CtorDecl.protectedCtor),
  (ClassDecl.mk "PlayerIterator" none CtorDecl.protectedCtor),
  (ClassDecl.mk "PropertyRegistry" none CtorDecl.protectedCtor),
  (ClassDecl.mk "Scoreboard" none CtorDecl.protectedCtor),
  (ClassDecl.mk "ScoreboardIdentity" none CtorDecl.protectedCtor),
  (ClassDecl.mk "ScoreboardObjective" none CtorDecl.protectedCtor),
  (ClassDecl.mk "ScoreboardScoreInfo" none CtorDecl.protectedCtor),
  (ClassDecl.mk "ScreenDisplay" none CtorDecl.protectedCtor),
  (ClassDecl.mk "Seat" none CtorDecl.protectedCtor),
  (ClassDecl.mk "System" none CtorDecl.protectedCtor),
  (ClassDecl.mk "SystemAfterEvents" none CtorDecl.noCtor),
  (ClassDecl.mk "SystemBeforeEvents" none CtorDecl.noCtor),
  (ClassDecl.mk "Trigger" none CtorDecl.publicCtor),
  (ClassDecl.mk "Vector" none CtorDecl.publicCtor),
  (ClassDecl.mk "World" none CtorDecl.protectedCtor)
]

/-- Class declarations of `lib/classes/components.d.ts`, in source order. -/
def componentsDTs : List ClassDecl := [
  (ClassDecl.mk "BlockComponent" (some "Component") CtorDecl.protectedCtor),
  (ClassDecl.mk "BlockInventoryComponent" (some "BlockComponent") CtorDecl.protectedCtor),
  (ClassDecl.mk "BlockLavaContainerComponent" (some "BlockLiquidContainerComponent") CtorDecl.protectedCtor),
  (ClassDecl.mk "BlockLiquidContainerComponent" (some "BlockComponent") CtorDecl.protectedCtor),
  (ClassDecl.mk "BlockPistonComponent" (some "BlockComponent") CtorDecl.protectedCtor),
  (ClassDecl.mk "BlockPotionContainerComponent" (some "BlockLiquidContainerComponent") CtorDecl.protectedCtor),
  (ClassDecl.mk "BlockRecordPlayerComponent" (some "BlockComponent") CtorDecl.protectedCtor),
  (ClassDecl.mk "BlockSignComponent" (some "BlockComponent") CtorDecl.protectedCtor),
  (ClassDecl.mk "BlockSnowContainerComponent" (some "BlockLiquidContainerComponent") CtorDecl.protectedCtor),
  (ClassDecl.mk "BlockWaterContainerComponent" (some "BlockLiquidContainerComponent") CtorDecl.protectedCtor),
  (ClassDecl.mk "Component" none CtorDecl.protectedCtor),
  (ClassDecl.mk "EntityAddRiderComponent" (some "EntityComponent") CtorDecl.protectedCtor),
  (ClassDecl.mk "EntityAgeableComponent" (some "EntityComponent") CtorDecl.protectedCtor),
  (ClassDecl.mk "EntityAttributeComponent" (some "EntityComponent") CtorDecl.protectedCtor),
  (ClassDecl.mk "EntityBaseMovementComponent" (some "EntityComponent") CtorDecl.protectedCtor),
  (ClassDecl.mk "EntityBreathableComponent" (some "EntityComponent") CtorDecl.protectedCtor),
  (ClassDecl.mk "EntityCanClimbComponent" (some "EntityComponent") CtorDecl.protectedCtor),
  (ClassDecl.mk "EntityCanFlyComponent" (some "EntityComponent") CtorDecl.protectedCtor),
  (ClassDecl.mk "EntityCanPowerJumpComponent" (some "EntityComponent") CtorDecl.protectedCtor),
  (ClassDecl.mk "EntityColorComponent" (some "EntityComponent") CtorDecl.protectedCtor),
  (ClassDecl.mk "EntityComponent" (some "Component") CtorDecl.protectedCtor),
  (ClassDecl.mk "EntityEquipmentInventoryComponent" none CtorDecl.protectedCtor),
  (ClassDecl.mk "EntityFireImmuneComponent" (some "EntityComponent") CtorDecl.protectedCtor),
  (ClassDecl.mk "EntityFloatsInLiquidComponent" (some "EntityComponent") CtorDecl.protectedCtor),
  (ClassDecl.mk "EntityFlyingSpeedComponent" (some "EntityComponent") CtorDecl.protectedCtor),
  (ClassDecl.mk "EntityFrictionModifierComponent" (some "EntityComponent") CtorDecl.protectedCtor),
  (ClassDecl.mk "EntityGroundOffsetComponent" (some "EntityComponent") CtorDecl.protectedCtor),
  (ClassDecl.mk "EntityHealableComponent" (some "EntityComponent") CtorDecl.protectedCtor),
  (ClassDecl.mk "EntityHealthComponent" (some "EntityAttributeComponent") CtorDecl.protectedCtor),
  (ClassDecl.mk "EntityInventoryComponent" (some "EntityComponent") CtorDecl.protectedCtor),
  (ClassDecl.mk "EntityIsBabyComponent" (some "EntityComponent") CtorDecl.protectedCtor),
  (ClassDecl.mk "EntityIsChargedComponent" (some "EntityComponent") CtorDecl.protectedCtor),
  (ClassDecl.mk "EntityIsChestedComponent" (some "EntityComponent") CtorDecl.protectedCtor),
  (ClassDecl.mk "EntityIsDyableComponent" (some "EntityComponent") CtorDecl.protectedCtor),
  (ClassDecl.mk "EntityIsHiddenWhenInvisibleComponent" (some "EntityComponent") CtorDecl.protectedCtor),
  (ClassDecl.mk "EntityIsIgnitedComponent" (some "EntityComponent") CtorDecl.protectedCtor),
  (ClassDecl.mk "EntityIsIllagerCaptainComponent" (some "EntityComponent") CtorDecl.protectedCtor),
  (ClassDecl.mk "EntityIsSaddledComponent" (some "EntityComponent") CtorDecl.protectedCtor),
  (ClassDecl.mk "EntityIsShakingComponent" (some "EntityComponent") CtorDecl.protectedCtor),
  (ClassDecl.mk "EntityIsShearedComponent" (some "EntityComponent") CtorDecl.protectedCtor),
  (ClassDecl.mk "EntityIsStackableComponent" (some "EntityComponent") CtorDecl.protectedCtor),
  (ClassDecl.mk "EntityIsStunnedComponent" (some "EntityComponent") CtorDecl.protectedCtor),
  (ClassDecl.mk "EntityIsTamedComponent" (some "EntityComponent") CtorDecl.protectedCtor),
  (ClassDecl.mk "EntityItemComponent" (some "EntityComponent") CtorDecl.protectedCtor),
  (ClassDecl.mk "EntityLavaMovementComponent" (some "EntityAttributeComponent") CtorDecl.protectedCtor),
  (ClassDecl.mk "EntityLeashableComponent" (some "EntityComponent") CtorDecl.protectedCtor),
  (ClassDecl.mk "EntityMarkVariantComponent" (some "EntityComponent") CtorDecl.protectedCtor),
  (ClassDecl.mk "EntityMountTamingComponent" (some "EntityComponent") CtorDecl.protectedCtor),
  (ClassDecl.mk "EntityMovementAmphibiousComponent" (some "EntityBaseMovementComponent") CtorDecl.protectedCtor),
  (ClassDecl.mk "EntityMovementBasicComponent" (some "EntityBaseMovementComponent") CtorDecl.protectedCtor),
  (ClassDecl.mk "EntityMovementComponent" (some "EntityAttributeComponent") CtorDecl.protectedCtor),
  (ClassDecl.mk "EntityMovementFlyComponent" (some "EntityBaseMovementComponent") CtorDecl.protectedCtor),
  (ClassDecl.mk "EntityMovementGenericComponent" (some "EntityBaseMovementComponent") CtorDecl.protectedCtor),
  (ClassDecl.mk "EntityMovementGlideComponent" (some "EntityBaseMovementComponent") CtorDecl.protectedCtor),
  (ClassDecl.mk "EntityMovementHoverComponent" (some "EntityBaseMovementComponent") CtorDecl.protectedCtor),
  (ClassDecl.mk "EntityMovementJumpComponent" (some "EntityBaseMovementComponent") CtorDecl.protectedCtor),
  (ClassDecl.mk "EntityMovementSkipComponent" (some "EntityBaseMovementComponent") CtorDecl.protectedCtor),
  (ClassDecl.mk "EntityMovementSwayComponent" (some "EntityBaseMovementComponent") CtorDecl.protectedCtor),
  (ClassDecl.mk "EntityNavigationClimbComponent" (some "EntityNavigationComponent") CtorDecl.protectedCtor),
  (ClassDecl.mk "EntityNavigationComponent" (some "EntityComponent") CtorDecl.protectedCtor),
  (ClassDecl.mk "EntityNavigationFloatComponent" (some "EntityNavigationComponent") CtorDecl.protectedCtor),
  (ClassDecl.mk "EntityNavigationFlyComponent" (some "EntityNavigationComponent") CtorDecl.protectedCtor),
  (ClassDecl.mk "EntityNavigationGenericComponent" (some "EntityNavigationComponent") CtorDecl.protectedCtor),
  (ClassDecl.mk "EntityNavigationHoverComponent" (some "EntityNavigationComponent") CtorDecl.protectedCtor),
  (ClassDecl.mk "EntityNavigationWalkComponent" (some "EntityNavigationComponent") CtorDecl.protectedCtor),
  (ClassDecl.mk "EntityOnFireComponent" (some "EntityComponent") CtorDecl.protectedCtor),
  (ClassDecl.mk "EntityPushThroughComponent" (some "EntityComponent") CtorDecl.protectedCtor),
  (ClassDecl.mk "EntityRideableComponent" (some "EntityComponent") CtorDecl.protectedCtor),
  (ClassDecl.mk "EntityRidingComponent" (some "EntityComponent") CtorDecl.protectedCtor),
  (ClassDecl.mk "EntityScaleComponent" (some "EntityComponent") CtorDecl.protectedCtor),
  (ClassDecl.mk "EntitySkinIdComponent" (some "EntityComponent") CtorDecl.protectedCtor),
  (ClassDecl.mk "EntityStrengthComponent" (some "EntityComponent") CtorDecl.protectedCtor),
  (ClassDecl.mk "EntityTameableComponent" (some "EntityComponent") CtorDecl.protectedCtor),
  (ClassDecl.mk "EntityUnderwaterMovementComponent" (some "EntityAttributeComponent") CtorDecl.protectedCtor),
  (ClassDecl.mk "EntityVariantComponent" (some "EntityComponent") CtorDecl.protectedCtor),
  (ClassDecl.mk "EntityWantsJockeyComponent" (some "EntityComponent") CtorDecl.protectedCtor),
  (ClassDecl.mk "ItemComponent" (some "Component") CtorDecl.protectedCtor),
  (ClassDecl.mk "ItemCooldownComponent" (some "ItemComponent") CtorDecl.protectedCtor),
  (ClassDecl.mk "ItemDurabilityComponent" (some "ItemComponent") CtorDecl.protectedCtor),
  (ClassDecl.mk "ItemEnchantsComponent" (some "ItemComponent") CtorDecl.protectedCtor),
  (ClassDecl.mk "ItemFoodComponent" (some "ItemComponent") CtorDecl.protectedCtor)
]

/-- Class declarations of `lib/classes/events.d.ts`, in source order.  `EffectAddBeforeEvent` is declared with an empty `extends` clause (`extends \x7b`), recorded here as having no parent. -/
def eventsDTs : List ClassDecl := [
  (ClassDecl.mk "BlockEvent" none CtorDecl.protectedCtor),
  (ClassDecl.mk "BlockExplodeAfterEvent" (some "BlockEvent") CtorDecl.protectedCtor),
  (ClassDecl.mk "BlockExplodeAfterEventSignal" none CtorDecl.protectedCtor),
  (ClassDecl.mk "BlockPlaceAfterEvent" (some "BlockEvent") CtorDecl.protectedCtor),
  (ClassDecl.mk "BlockPlaceAfterEventSignal" none CtorDecl.protectedCtor),
  (ClassDecl.mk "ButtonPushAfterEvent" (some "BlockEvent") CtorDecl.protectedCtor),
  (ClassDecl.mk "ButtonPushAfterEventSignal" none CtorDecl.protectedCtor),
  (ClassDecl.mk "ChatSendAfterEvent" none CtorDecl.protectedCtor),
  (ClassDecl.mk "ChatSendAfterEventSignal" none CtorDecl.protectedCtor),
  (ClassDecl.mk "ChatSendBeforeEvent" (some "ChatSendAfterEvent") CtorDecl.protectedCtor),
  (ClassDecl.mk "ChatSendBeforeEventSignal" none CtorDecl.protectedCtor),
  (ClassDecl.mk "DataDrivenEntityTriggerAfterEvent" none CtorDecl.protectedCtor),
  (ClassDecl.mk "DataDrivenEntityTriggerAfterEventSignal" none CtorDecl.protectedCtor),
  (ClassDecl.mk "DataDrivenEntityTriggerBeforeEvent" (some "DataDrivenEntityTriggerAfterEvent") CtorDecl.protectedCtor),
  (ClassDecl.mk "DataDrivenEntityTriggerBeforeEventSignal" none CtorDecl.protectedCtor),
  (ClassDecl.mk "EffectAddAfterEvent" none CtorDecl.protectedCtor),
  (ClassDecl.mk "EffectAddAfterEventSignal" none CtorDecl.protectedCtor),
  (ClassDecl.mk "EffectAddBeforeEvent" none CtorDecl.protectedCtor),
  (ClassDecl.mk "EffectAddBeforeEventSignal" none CtorDecl.protectedCtor),
  (ClassDecl.mk "EntityDieAfterEvent" none CtorDecl.protectedCtor),
  (ClassDecl.mk "EntityDieAfterEventSignal" none CtorDecl.protectedCtor),
  (ClassDecl.mk "EntityHealthChangedAfterEvent" none CtorDecl.noCtor),
  (ClassDecl.mk "EntityHealthChangedAfterEventSignal" none CtorDecl.protectedCtor),
  (ClassDecl.mk "EntityHitBlockAfterEvent" none CtorDecl.protectedCtor),
  (ClassDecl.mk "EntityHitEntityAfterEvent" none CtorDecl.protectedCtor),
  (ClassDecl.mk "EntityHitBlockAfterEventSignal" none CtorDecl.protectedCtor),
  (ClassDecl.mk "EntityHitEntityAfterEventSignal" none CtorDecl.protectedCtor),
  (ClassDecl.mk "EntityHurtAfterEvent" none CtorDecl.protectedCtor),
  (ClassDecl.mk "EntityHurtAfterEventSignal" none CtorDecl.protectedCtor),
  (ClassDecl.mk "EntityLoadAfterEvent" none CtorDecl.protectedCtor),
  (ClassDecl.mk "EntityLoadAfterEventSignal" none CtorDecl.protectedCtor),
  (ClassDecl.mk "EntityRemoveAfterEvent" none CtorDecl.protectedCtor),
  (ClassDecl.mk "EntityRemoveAfterEventSignal" none CtorDecl.protectedCtor),
  (ClassDecl.mk "EntityRemoveBeforeEvent" none CtorDecl.protectedCtor),
  (ClassDecl.mk "EntityRemoveBeforeEventSignal" none CtorDecl.protectedCtor),
  (ClassDecl.mk "EntitySpawnAfterEvent" none CtorDecl.protectedCtor),
  (ClassDecl.mk "EntitySpawnAfterEventSignal" none CtorDecl.protectedCtor),
  (ClassDecl.mk "ExplosionAfterEvent" none CtorDecl.protectedCtor),
  (ClassDecl.mk "ExplosionAfterEventSignal" none CtorDecl.protectedCtor),
  (ClassDecl.mk "ExplosionBeforeEvent" (some "ExplosionAfterEvent") CtorDecl.protectedCtor),
  (ClassDecl.mk "ExplosionBeforeEventSignal" none CtorDecl.protectedCtor),
  (ClassDecl.mk "ItemCompleteUseAfterEvent" none CtorDecl.protectedCtor),
  (ClassDecl.mk "ItemCompleteUseAfterEventSignal" none CtorDecl.protectedCtor),
  (ClassDecl.mk "ItemDefinitionAfterEventSignal" none CtorDecl.protectedCtor),
  (ClassDecl.mk "ItemDefinitionBeforeEventSignal" none CtorDecl.protectedCtor),
  (ClassDecl.mk "ItemDefinitionTriggeredAfterEvent" none CtorDecl.protectedCtor),
  (ClassDecl.mk "ItemDefinitionTriggeredBeforeEvent" (some "ItemDefinitionTriggeredAfterEvent") CtorDecl.protectedCtor),
  (ClassDecl.mk "ItemReleaseUseAfterEvent" none CtorDecl.protectedCtor),
  (ClassDecl.mk "ItemReleaseUseAfterEventSignal" none CtorDecl.protectedCtor),
  (ClassDecl.mk "ItemStartUseAfterEvent" none CtorDecl.protectedCtor),
  (ClassDecl.mk "ItemStartUseAfterEventSignal" none CtorDecl.protectedCtor),
  (ClassDecl.mk "ItemStartUseOnAfterEvent" none CtorDecl.protectedCtor),
  (ClassDecl.mk "ItemStartUseOnAfterEventSignal" none CtorDecl.protectedCtor),
  (ClassDecl.mk "ItemStopUseAfterEvent" none CtorDecl.protectedCtor),
  (ClassDecl.mk "ItemStopUseAfterEventSignal" none CtorDecl.protectedCtor),
  (ClassDecl.mk "ItemStopUseOnAfterEvent" none CtorDecl.protectedCtor),
  (ClassDecl.mk "ItemStopUseOnAfterEventSignal" none CtorDecl.protectedCtor),
  (ClassDecl.mk "ItemUseAfterEvent" none CtorDecl.protectedCtor),
  (ClassDecl.mk "ItemUseAfterEventSignal" none CtorDecl.protectedCtor),
  (ClassDecl.mk "ItemUseBeforeEvent" (some "ItemUseAfterEvent") CtorDecl.protectedCtor),
  (ClassDecl.mk "ItemUseBeforeEventSignal" none CtorDecl.protectedCtor),
  (ClassDecl.mk "ItemUseOnAfterEvent" none CtorDecl.protectedCtor),
  (ClassDecl.mk "ItemUseOnAfterEventSignal" none CtorDecl.protectedCtor),
  (ClassDecl.mk "ItemUseOnBeforeEvent" (some "ItemUseOnAfterEvent") CtorDecl.protectedCtor),
  (ClassDecl.mk "ItemUseOnBeforeEventSignal" none CtorDecl.protectedCtor),
  (ClassDecl.mk "LeverActionAfterEvent" (some "BlockEvent") CtorDecl.protectedCtor),
  (ClassDecl.mk "LeverActionAfterEventSignal" none CtorDecl.protectedCtor),
  (ClassDecl.mk "MessageReceiveAfterEvent" none CtorDecl.protectedCtor),
  (ClassDecl.mk "ScriptEventCommandMessageAfterEvent" none CtorDecl.protectedCtor),
  (ClassDecl.mk "ScriptEventCommandMessageAfterEventSignal" none CtorDecl.protectedCtor),
  (ClassDecl.mk "ServerMessageAfterEventSignal" none CtorDecl.protectedCtor),
  (ClassDecl.mk "SystemAfterEvents" none CtorDecl.noCtor),
  (ClassDecl.mk "SystemBeforeEvents" none CtorDecl.noCtor),
  (ClassDecl.mk "PistonActivateAfterEvent" (some "BlockEvent") CtorDecl.protectedCtor),
  (ClassDecl.mk "PistonActivateAfterEventSignal" none CtorDecl.protectedCtor),
  (ClassDecl.mk "PistonActivateBeforeEvent" (some "PistonActivateAfterEvent") CtorDecl.protectedCtor),
  (ClassDecl.mk "PistonActivateBeforeEventSignal" none CtorDecl.protectedCtor),
  (ClassDecl.mk "PlayerBreakBlockAfterEvent" (some "BlockEvent") CtorDecl.protectedCtor),
  (ClassDecl.mk "PlayerBreakBlockAfterEventSignal" none CtorDecl.protectedCtor),
  (ClassDecl.mk "PlayerBreakBlockBeforeEvent" (some "BlockEvent") CtorDecl.protectedCtor),
  (ClassDecl.mk "PlayerBreakBlockBeforeEventSignal" none CtorDecl.protectedCtor),
  (ClassDecl.mk "PlayerDimensionChangeAfterEvent" none CtorDecl.protectedCtor),
  (ClassDecl.mk "PlayerDimensionChangeAfterEventSignal" none CtorDecl.protectedCtor),
  (ClassDecl.mk "PlayerInteractWithBlockAfterEvent" none CtorDecl.protectedCtor),
  (ClassDecl.mk "PlayerInteractWithBlockAfterEventSignal" none CtorDecl.protectedCtor),
  (ClassDecl.mk "PlayerInteractWithBlockBeforeEvent" (some "PlayerInteractWithBlockAfterEvent") CtorDecl.protectedCtor),
  (ClassDecl.mk "PlayerInteractWithBlockBeforeEventSignal" none CtorDecl.protectedCtor),
  (ClassDecl.mk "PlayerInteractWithEntityAfterEvent" none CtorDecl.protectedCtor),
  (ClassDecl.mk "PlayerInteractWithEntityAfterEventSignal" none CtorDecl.protectedCtor),
  (ClassDecl.mk "PlayerInteractWithEntityBeforeEvent" (some "PlayerInteractWithEntityAfterEvent") CtorDecl.protectedCtor),
  (ClassDecl.mk "PlayerInteractWithEntityBeforeEventSignal" none CtorDecl.protectedCtor),
  (ClassDecl.mk "PlayerJoinAfterEvent" none CtorDecl.protectedCtor),
  (ClassDecl.mk "PlayerJoinAfterEventSignal" none CtorDecl.protectedCtor),
  (ClassDecl.mk "PlayerLeaveAfterEvent" none CtorDecl.protectedCtor),
  (ClassDecl.mk "PlayerLeaveAfterEventSignal" none CtorDecl.protectedCtor),
  (ClassDecl.mk "PlayerLeaveBeforeEvent" none CtorDecl.protectedCtor),
  (ClassDecl.mk "PlayerLeaveBeforeEventSignal" none CtorDecl.protectedCtor),
  (ClassDecl.mk "PlayerPlaceBlockAfterEvent" (some "BlockEvent") CtorDecl.protectedCtor),
  (ClassDecl.mk "PlayerPlaceBlockAfterEventSignal" none CtorDecl.protectedCtor),
  (ClassDecl.mk "PlayerPlaceBlockBeforeEvent" (some "BlockEvent") CtorDecl.noCtor),
  (ClassDecl.mk "PlayerPlaceBlockBeforeEventSignal" none CtorDecl.protectedCtor),
  (ClassDecl.mk "PlayerSpawnAfterEvent" none CtorDecl.protectedCtor),
  (ClassDecl.mk "PlayerSpawnAfterEventSignal" none CtorDecl.protectedCtor),
  (ClassDecl.mk "PressurePlatePopAfterEvent" (some "BlockEvent") CtorDecl.protectedCtor),
  (ClassDecl.mk "PressurePlatePopAfterEventSignal" none CtorDecl.protectedCtor),
  (ClassDecl.mk "PressurePlatePushAfterEvent" (some "BlockEvent") CtorDecl.protectedCtor),
  (ClassDecl.mk "PressurePlatePushAfterEventSignal" none CtorDecl.protectedCtor),
  (ClassDecl.mk "ProjectileHitBlockAfterEvent" none CtorDecl.protectedCtor),
  (ClassDecl.mk "ProjectileHitBlockAfterEventSignal" none CtorDecl.protectedCtor),
  (ClassDecl.mk "ProjectileHitEntityAfterEvent" none CtorDecl.protectedCtor),
  (ClassDecl.mk "ProjectileHitEntityAfterEventSignal" none CtorDecl.protectedCtor),
  (ClassDecl.mk "TargetBlockHitAfterEvent" (some "BlockEvent") CtorDecl.protectedCtor),
  (ClassDecl.mk "TargetBlockHitAfterEventSignal" none CtorDecl.protectedCtor),
  (ClassDecl.mk "TripWireTripAfterEvent" (some "BlockEvent") CtorDecl.protectedCtor),
  (ClassDecl.mk "TripWireTripAfterEventSignal" none CtorDecl.protectedCtor),
  (ClassDecl.mk "WatchdogTerminateBeforeEvent" none CtorDecl.protectedCtor),
  (ClassDecl.mk "WatchdogTerminateBeforeEventSignal" none CtorDecl.protectedCtor),
  (ClassDecl.mk "WeatherChangeAfterEvent" none CtorDecl.protectedCtor),
  (ClassDecl.mk "WeatherChangeAfterEventSignal" none CtorDecl.protectedCtor),
  (ClassDecl.mk "WorldInitializeAfterEvent" none CtorDecl.protectedCtor),
  (ClassDecl.mk "WorldInitializeAfterEventSignal" none CtorDecl.protectedCtor),
  (ClassDecl.mk "WorldAfterEvents" none CtorDecl.protectedCtor),
  (ClassDecl.mk "WorldBeforeEvents" none CtorDecl.noCtor)
]

/-- Class declarations of `lib/errors.d.ts` (src/unnamed/part_004, both revisions of the file), in source order. -/
def errorsDTs : List ClassDecl := [
  (ClassDecl.mk "CommandError" (some "Error") CtorDecl.protectedCtor),
  (ClassDecl.mk "PositionInUnloadedChunkError" (some "Error") CtorDecl.protectedCtor),
  (ClassDecl.mk "PositionOutOfWorldBoundariesError" (some "Error") CtorDecl.protectedCtor),
  (ClassDecl.mk "CommandError" (some "Error") CtorDecl.protectedCtor),
  (ClassDecl.mk "LocationInUnloadedChunkError" (some "Error") CtorDecl.protectedCtor),
  (ClassDecl.mk "LocationOutOfWorldBoundariesError" (some "Error") CtorDecl.protectedCtor)
]

/-- All class declarations of the API surface: `lib/classes.d.ts`,
`lib/classes/components.d.ts`, `lib/classes/events.d.ts` and
`lib/errors.d.ts`, in file order. -/
def apiClasses : List ClassDecl :=
  classesDTs ++ componentsDTs ++ eventsDTs ++ errorsDTs

/-- Looks a declared class up by name. -/
def findClass (n : String) : Option ClassDecl :=
  apiClasses.find? (fun c => c.name == n)

/-- Effective visibility of a class's constructor under TypeScript rules: an
explicit declaration wins; a class without a constructor declaration
inherits its base constructor's visibility, and a base-less class without a
constructor declaration gets the implicit public default constructor.
`fuel` bounds the ancestor chase; a parent not declared in this package also
yields the default. -/
def ctorVisibility : Nat → ClassDecl → CtorDecl
  | _, ⟨_, _, .publicCtor⟩ => .publicCtor
  | _, ⟨_, _, .protectedCtor⟩ => .protectedCtor
  | 0, _ => .publicCtor
  | Nat.succ fuel, ⟨_, p, .noCtor⟩ =>
    match p with
    | none => .publicCtor
    | some pn =>
      match findClass pn with
      | none => .publicCtor
      | some pc => ctorVisibility fuel pc

/-- A class is constructible by an add-on script exactly when its effective
constructor visibility is public; `protected constructor();` makes `new C()`
a type error outside the class. -/
def constructible (c : ClassDecl) : Bool :=
  ctorVisibility apiClasses.length c == .publicCtor

/-- Transitive derivation: `c` derives from the class named `target`
through its `extends` clauses.  `fuel` bounds the ancestor chase. -/
def derivesFrom : Nat → ClassDecl → String → Bool
  | _, ⟨_, none, _⟩, _ => false
  | 0, ⟨_, some p, _⟩, target => p == target
  | Nat.succ fuel, ⟨_, some p, _⟩, target =>
    p == target ||
      (match findClass p with
       | none => false
       | some pc => derivesFrom fuel pc target)

/-- The declared classes that an add-on script can construct locally. -/
def constructibleClasses : List String :=
  (apiClasses.filter constructible).map ClassDecl.name

/-! ### The per-file table of top-level constructs (C1) -/

/-- Kind of a top-level construct of a source file. -/
inductive TopLevel where
  | interfaceSig
  | classSig
  | enumSig
  | constSig
  | tripleSlashRef
  | importStmt
  | funcDef
  | taskDef
  | exportStmt
  | markdownProse
deriving DecidableEq, Repr

/-- One source file of the repository: its path (the unnamed files keep
their `src/unnamed/part_NNN` placeholder), whether it is a TypeScript
declaration file, and the kinds of its top-level constructs in source
order (documentation comments are attached to the construct they
document and are not listed separately). -/
structure SourceFile where
  path : String
  isDts : Bool
  items : List TopLevel
deriving Repr

/-- All thirteen source files of the repository.  `Gulpfile.js` has three
`import` statements, the `async function clean` (an `rm` call), the
`build = gulp.series(clean, concat)` task whose `concat` function builds a
gulp pipeline, the `function watch` (a `gulp.watch` call) and a default
export.  `unnamed/part_000` is the README (two revisions of markdown
prose); `unnamed/part_001` is `lib/classes.d.ts`; `unnamed/part_002` is
`lib/constants.d.ts`; `unnamed/part_003` an enum declaration file;
`unnamed/part_004` is `lib/errors.d.ts` (two revisions);
`unnamed/part_005` the interface declaration file; `unnamed/part_006` and
`unnamed/part_007` header/entry declaration files of triple-slash
references (the latter also declaring the four `export const`s). -/
def repoFiles : List SourceFile := [
  (SourceFile.mk "Gulpfile.js" false
    [TopLevel.importStmt, TopLevel.importStmt, TopLevel.importStmt,
     TopLevel.funcDef, TopLevel.taskDef, TopLevel.funcDef,
     TopLevel.exportStmt]),
  (SourceFile.mk "index.d.ts" true
    (List.replicate 6 TopLevel.tripleSlashRef ++
     List.replicate 4 TopLevel.constSig)),
  (SourceFile.mk "lib/enums.d.ts" true (List.replicate 24 TopLevel.enumSig)),
  (SourceFile.mk "lib/classes/components.d.ts" true
    (List.replicate 81 TopLevel.classSig)),
  (SourceFile.mk "lib/classes/events.d.ts" true
    (List.replicate 123 TopLevel.classSig)),
  (SourceFile.mk "unnamed/part_000" false
    [TopLevel.markdownProse, TopLevel.markdownProse]),
  (SourceFile.mk "unnamed/part_001" true
    (List.replicate 2 TopLevel.tripleSlashRef ++
     List.replicate 59 TopLevel.classSig)),
  (SourceFile.mk "unnamed/part_002" true
    (List.replicate 1 TopLevel.tripleSlashRef ++
     List.replicate 4 TopLevel.constSig)),
  (SourceFile.mk "unnamed/part_003" true
    (List.replicate 18 TopLevel.enumSig)),
  (SourceFile.mk "unnamed/part_004" true (List.replicate 6 TopLevel.classSig)),
  (SourceFile.mk "unnamed/part_005" true
    (List.replicate 45 TopLevel.interfaceSig)),
  (SourceFile.mk "unnamed/part_006" true
    (List.replicate 7 TopLevel.tripleSlashRef)),
  (SourceFile.mk "unnamed/part_007" true
    (List.replicate 6 TopLevel.tripleSlashRef ++
     List.replicate 4 TopLevel.constSig))
]

/-- A construct allowed by the claim's wording: an interface, class or
enum signature. -/
def isTypeSig : TopLevel → Bool
  | TopLevel.interfaceSig => true
  | TopLevel.classSig => true
  | TopLevel.enumSig => true
  | _ => false

/-- A construct a declaration file may contain: a type signature, an
ambient `const` signature, or a triple-slash reference directive. -/
def isDeclarationItem : TopLevel → Bool
  | TopLevel.interfaceSig => true
  | TopLevel.classSig => true
  | TopLevel.enumSig => true
  | TopLevel.constSig => true
  | TopLevel.tripleSlashRef => true
  | _ => false

/-- A construct containing executable logic: a function definition with a
body, or a gulp task definition. -/
def isExecutableItem : TopLevel → Bool
  | TopLevel.funcDef => true
  | TopLevel.taskDef => true
  | _ => false

/-! ### The Gulp build pipeline (C2) -/

/-- A file system: maps a path (relative to the package root) to the
contents of the file there, when one exists. -/
def FS := String → Option String

/-- The `clean` task of `Gulpfile.js`:
`await rm("dist", \x7bforce: true, recursive: true\x7d)` removes the `dist`
directory and everything under it; `force` makes a missing `dist` a
no-op. -/
def clean (fs : FS) : FS := fun p =>
  if p == "dist" || strStartsWith p "dist/" then none else fs p

/-- The ordered source list passed to `gulp.src` by the `concat` function
of the `build` task of `Gulpfile.js`. -/
def concatSources : List String :=
  ["lib/header.d.ts", "lib/enums.d.ts", "lib/classes.d.ts",
   "lib/classes/components.d.ts", "lib/classes/events.d.ts",
   "lib/interfaces.d.ts", "lib/errors.d.ts", "lib/constants.d.ts"]

/-- `gulp.src(...)` piped through `gulpConcat`: reads each source path in
order and concatenates the contents; the pipeline fails when a source file
is missing. -/
def concatRead (fs : FS) : List String → Option String
  | [] => some ""
  | p :: ps =>
    match fs p, concatRead fs ps with
    | some c, some rest => some (c ++ rest)
    | _, _ => none

/-- `.pipe(gulp.dest("dist"))` for the concatenated `index.d.ts`: writes
the content at the output path. -/
def dest (out : String) (content : String) (fs : FS) : FS := fun p =>
  if p == out then some content else fs p

/-- The `build` task of `Gulpfile.js`: `gulp.series(clean, concat)` — the
`clean` task runs first, then the concatenation into `dist/index.d.ts`. -/
def build (fs : FS) : Option FS :=
  match concatRead (clean fs) concatSources with
  | none => none
  | some c => some (dest "dist/index.d.ts" c (clean fs))

/-! ### Host-side contracts documented in `classes.d.ts` (C3, C4, C7, C9)

The host engine is external to the repository; the definitions below are
modelled from the documentation comments of `lib/classes.d.ts`, which are
the only statement of these behaviours in the source. -/

/-- Errors the documentation comments say host calls can raise. -/
inductive HostError where
  | invalidContainer
  | invalidSlot
  | invalidItemType
  | invalidAmount
  | invalidDimensionId
deriving DecidableEq, Repr

/-- A stack of items, as far as the modelled contracts need it: its type
identifier and its amount. -/
structure ItemStack where
  typeId : String
  amount : Nat
deriving DecidableEq, Repr

/-- Host-side state of a `Container`, modelled from the documentation
comments of `classes.d.ts`: whether the handle is still valid
(`isValid()`), and the slots, each either empty (`undefined`) or holding
an item stack. -/
structure Container where
  valid : Bool
  slots : List (Option ItemStack)
deriving DecidableEq, Repr

/-- A `ContainerSlot`: a reference to a slot at a given index of a
container. -/
structure ContainerSlot where
  container : Container
  index : Nat
deriving DecidableEq, Repr

/-- `Container.getItem(slot)`, modelled from its documentation comment:
throws if the container is invalid or the slot index is out of bounds;
otherwise returns the item stack at the slot, or `undefined` if the slot
is empty, without changing the contents of the slot (the container is
returned unchanged alongside the result). -/
def Container.getItem (c : Container) (slot : Int) :
    Except HostError (Option ItemStack × Container) :=
  if c.valid = false then Except.error HostError.invalidContainer
  else if slot < 0 ∨ (c.slots.length : Int) ≤ slot then
    Except.error HostError.invalidSlot
  else Except.ok (c.slots.getD slot.toNat none, c)

/-- `Container.getSlot(slot)`, modelled from its documentation comment:
throws if the container is invalid or the slot index is out of bounds;
otherwise returns a reference to the slot at the given index. -/
def Container.getSlot (c : Container) (slot : Int) :
    Except HostError ContainerSlot :=
  if c.valid = false then Except.error HostError.invalidContainer
  else if slot < 0 ∨ (c.slots.length : Int) ≤ slot then
    Except.error HostError.invalidSlot
  else Except.ok (ContainerSlot.mk c slot.toNat)

/-- `Container.moveItem(fromSlot, toSlot, toContainer)`, modelled from its
documentation comment: throws if either container is invalid or either
slot index is out of bounds; otherwise transfers the item, clearing the
source slot. -/
def Container.moveItem (c : Container) (fromSlot toSlot : Int)
    (toContainer : Container) : Except HostError (Container × Container) :=
  if c.valid = false ∨ toContainer.valid = false then
    Except.error HostError.invalidContainer
  else if fromSlot < 0 ∨ (c.slots.length : Int) ≤ fromSlot ∨
      toSlot < 0 ∨ (toContainer.slots.length : Int) ≤ toSlot then
    Except.error HostError.invalidSlot
  else
    Except.ok
      (Container.mk c.valid (c.slots.set fromSlot.toNat none),
       Container.mk toContainer.valid
         (toContainer.slots.set toSlot.toNat
           (c.slots.getD fromSlot.toNat none)))

/-- `Container.swapItems(slot, otherSlot, otherContainer)`, modelled from
its documentation comment: throws if either container is invalid or either
slot index is out of bounds; otherwise exchanges the contents of the two
slots. -/
def Container.swapItems (c : Container) (slot otherSlot : Int)
    (otherContainer : Container) : Except HostError (Container × Container) :=
  if c.valid = false ∨ otherContainer.valid = false then
    Except.error HostError.invalidContainer
  else if slot < 0 ∨ (c.slots.length : Int) ≤ slot ∨
      otherSlot < 0 ∨ (otherContainer.slots.length : Int) ≤ otherSlot then
    Except.error HostError.invalidSlot
  else
    Except.ok
      (Container.mk c.valid
        (c.slots.set slot.toNat
          (otherContainer.slots.getD otherSlot.toNat none)),
       Container.mk otherContainer.valid
         (otherContainer.slots.set otherSlot.toNat
           (c.slots.getD slot.toNat none)))

/-- An opcode a script callback can attempt against the world state.
Modelled from the documentation comments of `World.beforeEvents` and
`World.afterEvents`: callbacks run either in read-only or in read-write
mode, and the world state is abstracted to a single value. -/
inductive ScriptOp where
  | readState
  | writeState (v : Nat)
deriving DecidableEq, Repr

/-- A subscribed event callback, as a straight-line list of opcodes. -/
def Callback := List ScriptOp

/-- Execution mode of event callbacks: before-event callbacks execute in
read-only mode, after-event callbacks in read-write mode. -/
inductive EventMode where
  | readOnly
  | readWrite
deriving DecidableEq, Repr

/-- Executes one opcode: in read-only mode a write attempt has no effect
on the world state (the host rejects it); in read-write mode it lands. -/
def runOp : EventMode → Nat → ScriptOp → Nat
  | _, st, ScriptOp.readState => st
  | EventMode.readOnly, st, ScriptOp.writeState _ => st
  | EventMode.readWrite, _, ScriptOp.writeState v => v

/-- Executes a callback in the given mode from the given world state. -/
def runCallback (m : EventMode) (st : Nat) (cb : Callback) : Nat :=
  cb.foldl (runOp m) st

/-- The before- and after-event subscriber lists of one event signal. -/
structure WorldEvents where
  beforeSubs : List Callback
  afterSubs : List Callback

/-- Engine state: the world state and the queue of deferred after-event
callbacks. -/
structure EngineState where
  world : Nat
  pendingAfter : List Callback

/-- Dispatch at the moment the triggering action occurs, modelled from the
documentation comments of `World.beforeEvents` / `World.afterEvents`:
before-event callbacks are called immediately (synchronously), in
read-only mode; after-event callbacks are called in a deferred manner, so
at trigger time they are only queued. -/
def trigger (evs : WorldEvents) (s : EngineState) : EngineState :=
  EngineState.mk (evs.beforeSubs.foldl (runCallback EventMode.readOnly) s.world)
    (s.pendingAfter ++ evs.afterSubs)

/-- The deferred phase: the queued after-event callbacks run, in
read-write mode. -/
def runDeferred (s : EngineState) : EngineState :=
  EngineState.mk (s.pendingAfter.foldl (runCallback EventMode.readWrite) s.world)
    []

/-- A `Dimension` handle, carrying its identifier. -/
structure Dimension where
  id : String
deriving DecidableEq, Repr

/-- Host-side world as needed for `World.getDimension`: the set of valid
dimension identifiers. -/
structure World where
  dimensionIds : List String
deriving DecidableEq, Repr

/-- `World.getDimension(dimensionId)`, modelled from its documentation
comment: throws if the given dimension name is invalid, otherwise returns
the requested dimension. -/
def World.getDimension (w : World) (dimensionId : String) :
    Except HostError Dimension :=
  if dimensionId ∈ w.dimensionIds then Except.ok (Dimension.mk dimensionId)
  else Except.error HostError.invalidDimensionId

/-- A block component handle, carrying its component identifier. -/
structure BlockComponent where
  typeId : String
deriving DecidableEq, Repr

/-- Host-side state of a `Block` as needed for `Block.getComponent`: the
block components present on the block. -/
structure Block where
  components : List BlockComponent
deriving DecidableEq, Repr

/-- From the documentation comment of `Block.getComponent`: if a namespace
is not specified, `minecraft:` is assumed. -/
def normalizeComponentName (n : String) : String :=
  if n.data.contains ':' then n else "minecraft:" ++ n

/-- `Block.getComponent(componentName)`, modelled from its documentation
comment: returns the component object if it is present on the particular
block, `undefined` otherwise; the result is typed `BlockComponent`. -/
def Block.getComponent (b : Block) (componentName : String) :
    Option BlockComponent :=
  b.components.find?
    (fun c => c.typeId == normalizeComponentName componentName)

/-! ### Exported constants (C8) and the `ItemStack` contract (C9) -/

/-- `export const TicksPerDay = 24000;` from `lib/constants.d.ts` and
`index.d.ts`. -/
def TicksPerDay : Nat := 24000

/-- `export const TicksPerSecond = 20;` from `lib/constants.d.ts` and
`index.d.ts`. -/
def TicksPerSecond : Nat := 20

/-- Host item registry as needed for the `ItemStack` contract: which item
type identifiers are valid, and the `maxAmount` (maximum stack size) of
each type. -/
structure ItemRegistry where
  isValidType : String → Bool
  maxAmount : String → Nat

/-- Assignment to the `amount` property of an `ItemStack`, modelled from
its documentation comment: valid values range between 1-255, the provided
value is clamped to the item's maximum stack size, and the assignment
throws if the value is outside the range of 1-255. -/
def setAmount (reg : ItemRegistry) (s : ItemStack) (value : Int) :
    Except HostError ItemStack :=
  if value < 1 ∨ 255 < value then Except.error HostError.invalidAmount
  else Except.ok (ItemStack.mk s.typeId (min value.toNat (reg.maxAmount s.typeId)))

/-- `new ItemStack(itemType, amount)`, modelled from the documentation
comment of the `ItemStack` constructor: throws if `itemType` is invalid or
if `amount` is outside the range of 1-255; an in-range amount is clamped
to the item's maximum stack size. -/
def mkItemStack (reg : ItemRegistry) (itemType : String) (amount : Int) :
    Except HostError ItemStack :=
  if reg.isValidType itemType = false then Except.error HostError.invalidItemType
  else if amount < 1 ∨ 255 < amount then Except.error HostError.invalidAmount
  else Except.ok (ItemStack.mk itemType (min amount.toNat (reg.maxAmount itemType)))

/-! ### Sample data used by witnesses -/

/-- A sample item stack. -/
def sampleItem : ItemStack := ItemStack.mk "minecraft:apple" 1

/-- A sample valid two-slot container holding one item. -/
def sampleContainer : Container := Container.mk true [some sampleItem, none]

/-- A sample world with the three standard dimensions of
`MinecraftDimensionTypes`. -/
def sampleWorld : World :=
  World.mk ["minecraft:overworld", "minecraft:nether", "minecraft:the_end"]

/-- A sample block with an inventory component. -/
def sampleBlock : Block := Block.mk [BlockComponent.mk "minecraft:inventory"]

/-- A sample item registry where torches are the only valid item type,
stacking to 64. -/
def sampleRegistry : ItemRegistry :=
  ItemRegistry.mk (fun t => t == "minecraft:torch") (fun _ => 64)

/-- A sample file system for the witness of the build theorem: the eight
declaration sources hold one-letter contents and a stale file sits in
`dist`. -/
def sampleFS : FS := fun p =>
  if p == "lib/header.d.ts" then some "A"
  else if p == "lib/enums.d.ts" then some "B"
  else if p == "lib/classes.d.ts" then some "C"
  else if p == "lib/classes/components.d.ts" then some "D"
  else if p == "lib/classes/events.d.ts" then some "E"
  else if p == "lib/interfaces.d.ts" then some "F"
  else if p == "lib/errors.d.ts" then some "G"
  else if p == "lib/constants.d.ts" then some "H"
  else if p == "dist/stale.txt" then some "stale"
  else none

/-! ### Helper lemmas -/

/-- In read-only mode a single opcode never changes the world state. -/
theorem runOp_readOnly (st : Nat) (op : ScriptOp) :
    runOp EventMode.readOnly st op = st := by
  cases op <;> rfl

/-- In read-only mode a callback never changes the world state. -/
theorem runCallback_readOnly (st : Nat) (cb : Callback) :
    runCallback EventMode.readOnly st cb = st := by
  induction cb generalizing st with
  | nil => rfl
  | cons op ops ih =>
    show List.foldl (runOp EventMode.readOnly)
      (runOp EventMode.readOnly st op) ops = st
    rw [runOp_readOnly]
    exact ih st

/-- Running a list of callbacks in read-only mode never changes the world
state. -/
theorem foldl_runCallback_readOnly (st : Nat) (cbs : List Callback) :
    cbs.foldl (runCallback EventMode.readOnly) st = st := by
  induction cbs generalizing st with
  | nil => rfl
  | cons cb cbs ih =>
    show List.foldl (runCallback EventMode.readOnly)
      (runCallback EventMode.readOnly st cb) cbs = st
    rw [runCallback_readOnly]
    exact ih st

/-! ### The claims -/

/-- C1, counterexample: the claim that every source file of the repository
consists solely of interface, class, and enum signatures is false at
`Gulpfile.js`, which contains `import` statements, two function
definitions with executable bodies (`clean`, `watch`), the executable
`build = gulp.series(...)` task and an export statement. -/
theorem c1_counterexample :
    (repoFiles.find? (fun f => f.path == "Gulpfile.js")).map
      (fun f => f.items.all isTypeSig) = some false ∧
    repoFiles.all (fun f => f.items.all isTypeSig) = false := by
  constructor <;> rfl

/-- C1, amended: every TypeScript declaration file of the repository
consists solely of interface, class, enum and ambient `const` signatures
(with their documentation comments) and triple-slash reference directives;
the only file with executable logic is the build script `Gulpfile.js`, and
the only other non-declaration file is the markdown README. -/
theorem c1_theorem :
    repoFiles.all (fun f => !f.isDts || f.items.all isDeclarationItem) = true ∧
    (repoFiles.filter (fun f => f.items.any isExecutableItem)).map
      SourceFile.path = ["Gulpfile.js"] := by
  constructor <;> rfl

/-- C2: for every contents of the eight input declaration files, `build`
first removes any previously existing `dist` directory (the `clean` task of
`gulp.series`) and then produces `dist/index.d.ts` equal to the
concatenation of `lib/header.d.ts`, `lib/enums.d.ts`, `lib/classes.d.ts`,
`lib/classes/components.d.ts`, `lib/classes/events.d.ts`,
`lib/interfaces.d.ts`, `lib/errors.d.ts` and `lib/constants.d.ts`, in that
order; every other path under `dist` is absent afterwards. -/
theorem c2_theorem (fs : FS) (a b c d e f g h : String)
    (h1 : fs "lib/header.d.ts" = some a)
    (h2 : fs "lib/enums.d.ts" = some b)
    (h3 : fs "lib/classes.d.ts" = some c)
    (h4 : fs "lib/classes/components.d.ts" = some d)
    (h5 : fs "lib/classes/events.d.ts" = some e)
    (h6 : fs "lib/interfaces.d.ts" = some f)
    (h7 : fs "lib/errors.d.ts" = some g)
    (h8 : fs "lib/constants.d.ts" = some h) :
    ∃ fs', build fs = some fs' ∧
      fs' "dist/index.d.ts" =
        some (a ++ b ++ c ++ d ++ e ++ f ++ g ++ h) ∧
      ∀ p, (p == "dist" || strStartsWith p "dist/") = true →
        p ≠ "dist/index.d.ts" → fs' p = none := by
  have e1 : clean fs "lib/header.d.ts" = fs "lib/header.d.ts" := rfl
  have e2 : clean fs "lib/enums.d.ts" = fs "lib/enums.d.ts" := rfl
  have e3 : clean fs "lib/classes.d.ts" = fs "lib/classes.d.ts" := rfl
  have e4 : clean fs "lib/classes/components.d.ts" =
    fs "lib/classes/components.d.ts" := rfl
  have e5 : clean fs "lib/classes/events.d.ts" =
    fs "lib/classes/events.d.ts" := rfl
  have e6 : clean fs "lib/interfaces.d.ts" = fs "lib/interfaces.d.ts" := rfl
  have e7 : clean fs "lib/errors.d.ts" = fs "lib/errors.d.ts" := rfl
  have e8 : clean fs "lib/constants.d.ts" = fs "lib/constants.d.ts" := rfl
  have hc : concatRead (clean fs) concatSources =
      some (a ++ (b ++ (c ++ (d ++ (e ++ (f ++ (g ++ (h ++ "")))))))) := by
    simp only [concatSources, concatRead, e1, e2, e3, e4, e5, e6, e7, e8,
      h1, h2, h3, h4, h5, h6, h7, h8]
  refine ⟨dest "dist/index.d.ts"
      (a ++ (b ++ (c ++ (d ++ (e ++ (f ++ (g ++ (h ++ ""))))))))
      (clean fs), ?_, ?_, ?_⟩
  · unfold build
    rw [hc]
  · show some (a ++ (b ++ (c ++ (d ++ (e ++ (f ++ (g ++ (h ++ "")))))))) = _
    simp [String.append_assoc]
  · intro p hp hne
    have hb : (p == "dist/index.d.ts") = false := beq_eq_false_iff_ne.mpr hne
    show (if (p == "dist/index.d.ts") = true then _ else clean fs p) = none
    rw [hb]
    simp only [Bool.false_eq_true, if_false]
    show (if (p == "dist" || strStartsWith p "dist/") = true
      then none else fs p) = none
    rw [hp]
    simp

/-- C2, witness: a concrete file system whose eight sources hold the
one-letter contents `A`–`H` and which has a stale file under `dist`;
`build` yields `dist/index.d.ts` with contents `ABCDEFGH` and no stale
file. -/
theorem c2_witness :
    (build sampleFS).elim none (fun fs' => fs' "dist/index.d.ts") =
      some "ABCDEFGH" ∧
    (build sampleFS).elim (some "never") (fun fs' => fs' "dist/stale.txt") =
      none := by
  obtain ⟨fs', hb, hout, hnone⟩ :=
    c2_theorem sampleFS "A" "B" "C" "D" "E" "F" "G" "H"
      rfl rfl rfl rfl rfl rfl rfl rfl
  have hstale : fs' "dist/stale.txt" = none :=
    hnone "dist/stale.txt" rfl (by decide)
  rw [hb]
  exact ⟨hout, hstale⟩

/-- C3: the documented accessor contract of `Container` is a raises-iff
contract: `getItem` and `getSlot` raise exactly when the container is
invalid or the slot index is out of bounds, a successful `getItem` returns
the slot's contents (or `undefined` when the slot is empty) and leaves the
container unchanged, and `moveItem` and `swapItems` raise exactly when
either container involved is invalid or either slot index is out of
bounds. -/
theorem c3_theorem (c c₂ : Container) (s s₂ : Int) :
    ((∃ err, c.getItem s = Except.error err) ↔
      ¬(c.valid = true ∧ 0 ≤ s ∧ s < (c.slots.length : Int))) ∧
    (∀ v c', c.getItem s = Except.ok (v, c') →
      c' = c ∧ v = c.slots.getD s.toNat none) ∧
    ((∃ err, c.getSlot s = Except.error err) ↔
      ¬(c.valid = true ∧ 0 ≤ s ∧ s < (c.slots.length : Int))) ∧
    ((∃ err, c.moveItem s s₂ c₂ = Except.error err) ↔
      ¬(c.valid = true ∧ c₂.valid = true ∧
        0 ≤ s ∧ s < (c.slots.length : Int) ∧
        0 ≤ s₂ ∧ s₂ < (c₂.slots.length : Int))) ∧
    ((∃ err, c.swapItems s s₂ c₂ = Except.error err) ↔
      ¬(c.valid = true ∧ c₂.valid = true ∧
        0 ≤ s ∧ s < (c.slots.length : Int) ∧
        0 ≤ s₂ ∧ s₂ < (c₂.slots.length : Int))) := by
  refine ⟨?_, ?_, ?_, ?_, ?_⟩
  · unfold Container.getItem
    split_ifs with hv hs
    · constructor
      · rintro - ⟨hvt, -⟩
        rw [hv] at hvt
        cases hvt
      · intro _
        exact ⟨HostError.invalidContainer, rfl⟩
    · constructor
      · rintro - ⟨-, hs1, hs2⟩
        omega
      · intro _
        exact ⟨HostError.invalidSlot, rfl⟩
    · simp only [Bool.not_eq_false] at hv
      push_neg at hs
      constructor
      · rintro ⟨err, herr⟩
        cases herr
      · intro hcon
        exact absurd ⟨hv, by omega, by omega⟩ hcon
  · intro v c' hok
    unfold Container.getItem at hok
    split_ifs at hok with hv hs
    injection hok with hp
    injection hp with ha hb
    exact ⟨hb.symm, ha.symm⟩
  · unfold Container.getSlot
    split_ifs with hv hs
    · constructor
      · rintro - ⟨hvt, -⟩
        rw [hv] at hvt
        cases hvt
      · intro _
        exact ⟨HostError.invalidContainer, rfl⟩
    · constructor
      · rintro - ⟨-, hs1, hs2⟩
        omega
      · intro _
        exact ⟨HostError.invalidSlot, rfl⟩
    · simp only [Bool.not_eq_false] at hv
      push_neg at hs
      constructor
      · rintro ⟨err, herr⟩
        cases herr
      · intro hcon
        exact absurd ⟨hv, by omega, by omega⟩ hcon
  · unfold Container.moveItem
    split_ifs with hv hs
    · constructor
      · rintro - ⟨hv1, hv2, -⟩
        rcases hv with hv | hv
        · rw [hv] at hv1; cases hv1
        · rw [hv] at hv2; cases hv2
      · intro _
        exact ⟨HostError.invalidContainer, rfl⟩
    · constructor
      · rintro - ⟨-, -, hb1, hb2, hb3, hb4⟩
        omega
      · intro _
        exact ⟨HostError.invalidSlot, rfl⟩
    · push_neg at hv
      obtain ⟨hv1, hv2⟩ := hv
      simp only [Bool.not_eq_false] at hv1 hv2
      push_neg at hs
      constructor
      · rintro ⟨err, herr⟩
        cases herr
      · intro hcon
        exact absurd ⟨hv1, hv2, by omega, by omega, by omega, by omega⟩ hcon
  · unfold Container.swapItems
    split_ifs with hv hs
    · constructor
      · rintro - ⟨hv1, hv2, -⟩
        rcases hv with hv | hv
        · rw [hv] at hv1; cases hv1
        · rw [hv] at hv2; cases hv2
      · intro _
        exact ⟨HostError.invalidContainer, rfl⟩
    · constructor
      · rintro - ⟨-, -, hb1, hb2, hb3, hb4⟩
        omega
      · intro _
        exact ⟨HostError.invalidSlot, rfl⟩
    · push_neg at hv
      obtain ⟨hv1, hv2⟩ := hv
      simp only [Bool.not_eq_false] at hv1 hv2
      push_neg at hs
      constructor
      · rintro ⟨err, herr⟩
        cases herr
      · intro hcon
        exact absurd ⟨hv1, hv2, by omega, by omega, by omega, by omega⟩ hcon

/-- C3, witness: on a concrete valid two-slot container, `getItem 0`
succeeds and returns the item without touching the container, and
`getItem 5` raises (index out of bounds). -/
theorem c3_witness :
    Container.getItem sampleContainer 0 =
      Except.ok (some sampleItem, sampleContainer) ∧
    (Container.getItem sampleContainer 5).isOk = false := by
  obtain ⟨err, herr⟩ :=
    (c3_theorem sampleContainer sampleContainer 5 0).1.mpr (by decide)
  constructor
  · rfl
  · rw [herr]
    rfl

/-- C4: before-event callbacks run synchronously at the trigger and in
read-only mode, so the world state after the trigger step equals the world
state before it (no before-event callback ever mutates world state), while
after-event callbacks are not executed at the trigger: they are queued and
run in the deferred phase, in read-write mode. -/
theorem c4_theorem (evs : WorldEvents) (s : EngineState) :
    (trigger evs s).world = s.world ∧
    (trigger evs s).pendingAfter = s.pendingAfter ++ evs.afterSubs ∧
    (runDeferred (trigger evs s)).world =
      (s.pendingAfter ++ evs.afterSubs).foldl
        (runCallback EventMode.readWrite) s.world := by
  refine ⟨foldl_runCallback_readOnly s.world evs.beforeSubs, rfl, ?_⟩
  show (s.pendingAfter ++ evs.afterSubs).foldl (runCallback EventMode.readWrite)
      (trigger evs s).world = _
  rw [show (trigger evs s).world = s.world from
    foldl_runCallback_readOnly s.world evs.beforeSubs]

/-- C5, counterexample: the claim says no declared class has a public
constructor callable by add-on scripts, but `ItemStack` is declared with
the public constructor
`constructor(itemType: ItemType | string, amount?: number);`, so the
claim is false at the class `ItemStack`. -/
theorem c5_counterexample :
    (findClass "ItemStack").map ClassDecl.ctor = some CtorDecl.publicCtor ∧
    constructibleClasses.contains "ItemStack" = true := by
  constructor <;> rfl

/-- C5, amended: not every declared class is an opaque handle.  The
classes an add-on script can construct locally are exactly those declared
with an explicit public constructor (`BlockAreaSize`,
`CompoundBlockVolume`, `DefinitionModifier`, `DynamicPropertiesDefinition`,
`Enchantment`, `EnchantmentList`, `ItemStack`, `Trigger`, `Vector`)
together with those declared without any constructor and without a base
class, which get the implicit public default constructor (`EffectTypes`,
`MolangVariableMap`, `SystemAfterEvents`, `SystemBeforeEvents`,
`EntityHealthChangedAfterEvent`, `WorldBeforeEvents`; the `System*`
registries are listed once per declaring file); every other declared class
has an effectively protected constructor and its instances can be obtained
only from the host. -/
theorem c5_theorem :
    constructibleClasses =
      ["BlockAreaSize", "CompoundBlockVolume", "DefinitionModifier",
       "DynamicPropertiesDefinition", "EffectTypes", "Enchantment",
       "EnchantmentList", "ItemStack", "MolangVariableMap",
       "SystemAfterEvents", "SystemBeforeEvents", "Trigger", "Vector",
       "EntityHealthChangedAfterEvent", "SystemAfterEvents",
       "SystemBeforeEvents", "WorldBeforeEvents"] ∧
    apiClasses.all
      (fun cl => constructible cl ||
        (ctorVisibility apiClasses.length cl == CtorDecl.protectedCtor)) =
      true := by
  constructor <;> rfl

/-- C6, counterexample: `EntityEquipmentInventoryComponent` is a declared
class whose name ends in `Component`, yet its declaration has no `extends`
clause at all, so it does not derive (directly or transitively) from the
base class `Component`. -/
theorem c6_counterexample :
    strEndsWith "EntityEquipmentInventoryComponent" "Component" = true ∧
    (findClass "EntityEquipmentInventoryComponent").map ClassDecl.parent =
      some none ∧
    (findClass "EntityEquipmentInventoryComponent").map
      (fun cl => derivesFrom apiClasses.length cl "Component") =
      some false := by
  refine ⟨rfl, rfl, rfl⟩

/-- C6, amended: the declared hierarchy is a type-level taxonomy in which
`Player` extends `Entity`, and every declared class whose name ends in
`Component` — other than the base class `Component` itself and
`EntityEquipmentInventoryComponent`, which is declared with no `extends`
clause — derives, directly or transitively, from `Component`. -/
theorem c6_theorem :
    (findClass "Player").map ClassDecl.parent = some (some "Entity") ∧
    apiClasses.all
      (fun cl => !(strEndsWith cl.name "Component") ||
        (cl.name == "Component") ||
        (cl.name == "EntityEquipmentInventoryComponent") ||
        derivesFrom apiClasses.length cl "Component") = true := by
  constructor <;> rfl

/-- C7: the declared accessors realize the hierarchical world model:
`World.getDimension` throws exactly when the dimension id is invalid and
otherwise returns the dimension with that id, and every component that
`Block.getComponent` returns is one of the block's `BlockComponent`s. -/
theorem c7_theorem (w : World) (dimensionId : String) (b : Block)
    (n : String) :
    ((∃ err, w.getDimension dimensionId = Except.error err) ↔
      dimensionId ∉ w.dimensionIds) ∧
    (dimensionId ∈ w.dimensionIds →
      w.getDimension dimensionId = Except.ok (Dimension.mk dimensionId)) ∧
    (∀ comp, b.getComponent n = some comp → comp ∈ b.components) := by
  refine ⟨?_, ?_, ?_⟩
  · unfold World.getDimension
    split_ifs with hmem
    · constructor
      · rintro ⟨err, herr⟩
        cases herr
      · intro hn
        exact absurd hmem hn
    · constructor
      · intro _
        exact hmem
      · intro _
        exact ⟨HostError.invalidDimensionId, rfl⟩
  · intro hmem
    unfold World.getDimension
    rw [if_pos hmem]
  · intro comp hcomp
    exact List.mem_of_find?_eq_some hcomp

/-- C7, witness: on a world with the three standard dimensions,
`getDimension "minecraft:overworld"` succeeds, `getDimension "dreamland"`
raises, and the inventory component returned by a concrete block is among
the block's components. -/
theorem c7_witness :
    sampleWorld.getDimension "minecraft:overworld" =
      Except.ok (Dimension.mk "minecraft:overworld") ∧
    (sampleWorld.getDimension "dreamland").isOk = false ∧
    BlockComponent.mk "minecraft:inventory" ∈ sampleBlock.components := by
  obtain ⟨err, herr⟩ :=
    (c7_theorem sampleWorld "dreamland" sampleBlock "inventory").1.mpr
      (by decide)
  refine ⟨(c7_theorem sampleWorld "minecraft:overworld" sampleBlock
    "inventory").2.1 (by decide), ?_, ?_⟩
  · rw [herr]
    rfl
  · exact (c7_theorem sampleWorld "minecraft:overworld" sampleBlock
      "inventory").2.2 (BlockComponent.mk "minecraft:inventory") rfl

/-- C8: the exported constants satisfy `TicksPerDay = 24000` and
`TicksPerSecond = 20`, so `TicksPerDay = 1200 * TicksPerSecond`: at the
documented tick rates one in-game day lasts exactly 1200 real seconds. -/
theorem c8_theorem :
    TicksPerDay = 24000 ∧ TicksPerSecond = 20 ∧
      TicksPerDay = 1200 * TicksPerSecond :=
  ⟨rfl, rfl, rfl⟩

/-- C9: assigning the `amount` of an `ItemStack` raises exactly when the
value is outside 1-255, `new ItemStack(itemType, amount)` raises exactly
when the item type is invalid or the amount is outside 1-255, and on
success the stored amount is the requested value clamped to the item's
maximum stack size. -/
theorem c9_theorem (reg : ItemRegistry) (st : ItemStack) (v : Int)
    (itemType : String) (amount : Int) :
    ((∃ err, setAmount reg st v = Except.error err) ↔ (v < 1 ∨ 255 < v)) ∧
    (∀ st', setAmount reg st v = Except.ok st' →
      st'.typeId = st.typeId ∧
      st'.amount = min v.toNat (reg.maxAmount st.typeId)) ∧
    ((∃ err, mkItemStack reg itemType amount = Except.error err) ↔
      (reg.isValidType itemType = false ∨ amount < 1 ∨ 255 < amount)) ∧
    (∀ st', mkItemStack reg itemType amount = Except.ok st' →
      st'.typeId = itemType ∧
      st'.amount = min amount.toNat (reg.maxAmount itemType)) := by
  refine ⟨?_, ?_, ?_, ?_⟩
  · unfold setAmount
    split_ifs with hr
    · constructor
      · intro _
        exact hr
      · intro _
        exact ⟨HostError.invalidAmount, rfl⟩
    · constructor
      · rintro ⟨err, herr⟩
        cases herr
      · intro hcon
        exact absurd hcon hr
  · intro st' hok
    unfold setAmount at hok
    split_ifs at hok with hr
    injection hok with hok
    rw [← hok]
    exact ⟨rfl, rfl⟩
  · unfold mkItemStack
    split_ifs with ht hr
    · constructor
      · intro _
        exact Or.inl ht
      · intro _
        exact ⟨HostError.invalidItemType, rfl⟩
    · constructor
      · intro _
        exact Or.inr hr
      · intro _
        exact ⟨HostError.invalidAmount, rfl⟩
    · constructor
      · rintro ⟨err, herr⟩
        cases herr
      · rintro (hcon | hcon)
        · exact absurd hcon ht
        · exact absurd hcon hr
  · intro st' hok
    unfold mkItemStack at hok
    split_ifs at hok with ht hr
    injection hok with hok
    rw [← hok]
    exact ⟨rfl, rfl⟩

/-- C9, witness: with a registry where torches are valid and stack to 64,
setting an amount of 300 raises, and `new ItemStack("minecraft:torch",
255)` succeeds with the amount clamped to 64. -/
theorem c9_witness :
    (setAmount sampleRegistry sampleItem 300).isOk = false ∧
    mkItemStack sampleRegistry "minecraft:torch" 255 =
      Except.ok (ItemStack.mk "minecraft:torch" 64) := by
  obtain ⟨err, herr⟩ :=
    (c9_theorem sampleRegistry sampleItem 300 "minecraft:torch" 255).1.mpr
      (by decide)
  constructor
  · rw [herr]
    rfl
  · rfl

/-- C10: every declared error class of both revisions of `lib/errors.d.ts`
(`CommandError`, `PositionInUnloadedChunkError`,
`PositionOutOfWorldBoundariesError`, `LocationInUnloadedChunkError`,
`LocationOutOfWorldBoundariesError`) extends `Error` and has only a
protected constructor, so add-on scripts can catch and type-test these
errors but never construct them locally. -/
theorem c10_theorem :
    errorsDTs.map ClassDecl.name =
      ["CommandError", "PositionInUnloadedChunkError",
       "PositionOutOfWorldBoundariesError", "CommandError",
       "LocationInUnloadedChunkError", "LocationOutOfWorldBoundariesError"] ∧
    errorsDTs.all
      (fun cl => (cl.parent == some "Error") &&
        (cl.ctor == CtorDecl.protectedCtor) && !(constructible cl)) =
      true := by
  constructor <;> rfl

end MinecraftServer

